import Mathlib

/-!
Shallow embedding of the lead-manager page (`src/unnamed/part_000`,
a Next.js client component) and proofs about its spec claims.

The page keeps client state: a lead list, a fetching flag, a modal-open
flag, a loading flag, an optional error message, and an interval ref used
to auto-clear a failed-delete error after 4000 ms.  Network calls are
modelled by passing the resolved response into the handler; the UI event
loop is modelled as a sequence of atomic events folded over the state.
-/

namespace LeadManager

/-- The `ELeadStatus` enum of the source (five pipeline stages). -/
inductive ELeadStatus where
  | New
  | Engaged
  | ProposalSent
  | ClosedWon
  | ClosedLost
deriving DecidableEq

/-- The string value of each enum member, as in the TS source. -/
def ELeadStatus.value : ELeadStatus → String
  | .New => "New"
  | .Engaged => "Engaged"
  | .ProposalSent => "Proposal Sent"
  | .ClosedWon => "Closed-Won"
  | .ClosedLost => "Closed-Lost"

/-- `Object.values(ELeadStatus)` in declaration order. -/
def statusValues : List String :=
  [ELeadStatus.New.value, ELeadStatus.Engaged.value, ELeadStatus.ProposalSent.value,
   ELeadStatus.ClosedWon.value, ELeadStatus.ClosedLost.value]

/-- `TLeadFormInputs`: the three form fields.  The status field is the raw
string produced by the select control; the Joi schema validates it against
the enum values. -/
structure TLeadFormInputs where
  name : String
  email : String
  status : String
deriving DecidableEq

/-- `ILead`: a lead record as returned by the server (`_id` plus the form
fields). -/
structure ILead where
  _id : String
  name : String
  email : String
  status : String
deriving DecidableEq

/-- Joi rule for `name`: `Joi.string().max(20).required()` with messages
`string.empty ↦ "Name is required"`, `string.max ↦ "Name cannot exceed 20
characters"`.  Returns the field error, if any. -/
def validateName (name : String) : Option String :=
  if name = "" then some "Name is required"
  else if name.length > 20 then some "Name cannot exceed 20 characters"
  else none

/-- Splits a character list on a separator character (the segments between
occurrences of the separator, in order). -/
def splitOnChar (c : Char) : List Char → List (List Char)
  | [] => [[]]
  | x :: rest =>
      match splitOnChar c rest with
      | [] => if x = c then [[], []] else [[x]]
      | y :: ys => if x = c then [] :: y :: ys else (x :: y) :: ys

/-- Whether a string is a syntactically valid email for
`Joi.string().email({ tlds: { allow: false } })`: one `@` separating a
non-empty local part from a domain of at least two non-empty dot-separated
labels, with no top-level-domain allowlist applied. -/
def isValidEmailStr (e : String) : Bool :=
  match splitOnChar '@' e.toList with
  | [localPart, domain] =>
      !localPart.isEmpty &&
      (let labels := splitOnChar '.' domain
       labels.length ≥ 2 && labels.all (fun l => !l.isEmpty))
  | _ => false

/-- Joi rule for `email`: required, must match email syntax; messages
`string.empty ↦ "Email is required"`, `string.email ↦ "Invalid email
address"`. -/
def validateEmail (email : String) : Option String :=
  if email = "" then some "Email is required"
  else if isValidEmailStr email then none
  else some "Invalid email address"

/-- Joi rule for `status`: `Joi.string().valid(...Object.values(ELeadStatus))
.required()` with message `any.only ↦ "Invalid status"`. -/
def validateStatus (status : String) : Option String :=
  if status ∈ statusValues then none else some "Invalid status"

/-- Turns one field's optional error into entries of the error map. -/
def fieldErrors (field : String) (e : Option String) : List (String × String) :=
  match e with
  | some m => [(field, m)]
  | none => []

/-- The whole `schema` object: field name ↦ message for every failing
field; the empty list means the input is valid. -/
def validateLead (i : TLeadFormInputs) : List (String × String) :=
  fieldErrors "name" (validateName i.name) ++
  fieldErrors "email" (validateEmail i.email) ++
  fieldErrors "status" (validateStatus i.status)

/-- JS truthiness of `res.error`: `undefined`/`null` and the empty string
are falsy; any non-empty string is truthy. -/
def errTruthy : Option String → Bool
  | none => false
  | some s => s != ""

/-- A parsed `POST /leads` response: the envelope's optional `error` field,
plus the created record carried by a success body. -/
structure CreateResponse where
  error : Option String
  record : ILead
deriving DecidableEq

/-- A parsed `DELETE /leads/{id}` response: a `\x7b\x7d`-like success body has no
`error` field. -/
structure DeleteResponse where
  error : Option String
deriving DecidableEq

/-- The form's initial values: `useForm` is created without
`defaultValues`, so `reset()` returns every field to its empty initial
value. -/
def initialFormInputs : TLeadFormInputs := ⟨"", "", ""⟩

/-- The page state of the `Home` component.  `timers` is the list of
pending auto-clear timers as `(id, fireTime)` pairs; `intervalRef` mirrors
`intervalRef.current` (the id of the last scheduled timer, left stale by
`clearInterval`); `nextTimerId` supplies fresh timer ids; `now` is the
clock reading when the last scheduling happened. -/
structure HomeState where
  leads : List ILead
  fetching : Bool
  modalOpen : Bool
  loading : Bool
  error : Option String
  form : TLeadFormInputs
  timers : List (Nat × Nat)
  intervalRef : Option Nat
  nextTimerId : Nat
  now : Nat
deriving DecidableEq

/-- Initial `useState` values: empty leads, `fetching = true`, modal
closed, not loading, no error, no timer. -/
def initState : HomeState :=
  { leads := [], fetching := true, modalOpen := false, loading := false,
    error := none, form := initialFormInputs, timers := [],
    intervalRef := none, nextTimerId := 0, now := 0 }

/-- `clearInterval(intervalRef.current)`: removes the tracked timer from
the pending set; `intervalRef.current` itself is not nulled. -/
def clearTrackedTimer (s : HomeState) : HomeState :=
  { s with timers :=
      match s.intervalRef with
      | some tid => s.timers.filter (fun t => t.1 != tid)
      | none => s.timers }

/-- `fetchLeads` after its promise settles: on success the response array
replaces `leads`; on rejection the error message is stored; `finally`
leaves `fetching = false` either way. -/
def fetchLeadsStep (s : HomeState) (result : Except String (List ILead)) : HomeState :=
  match result with
  | .ok data => { s with leads := data, fetching := false }
  | .error msg => { s with error := some msg, fetching := false }

/-- `onSubmit` after the POST resolves: a truthy `res.error` stores the
message and stops (modal stays open, leads untouched); otherwise the modal
closes, the form resets, the response record is appended and the error is
cleared.  `finally` leaves `loading = false` in both branches. -/
def onSubmit (s : HomeState) (res : CreateResponse) : HomeState :=
  if errTruthy res.error then
    { s with error := res.error, loading := false }
  else
    { s with modalOpen := false, form := initialFormInputs,
             leads := s.leads ++ [res.record], error := none, loading := false }

/-- `handleSubmit(onSubmit)`: react-hook-form runs the Joi resolver first
and invokes `onSubmit` only when validation produced no field errors. -/
def handleSubmitStep (s : HomeState) (input : TLeadFormInputs) (res : CreateResponse) : HomeState :=
  if validateLead input = [] then onSubmit s res else s

/-- `removeLead(id)`: first `clearInterval` on the tracked timer, then the
empty-id guard returns; otherwise, after the DELETE resolves, a truthy
`res.error` stores the message and schedules a fresh auto-clear timer
4000 ms out (recording it in `intervalRef`), while a success body filters
the lead with that `_id` out of the list. -/
def removeLead (s : HomeState) (id : String) (res : DeleteResponse) : HomeState :=
  let s1 := clearTrackedTimer s
  if id = "" then s1
  else if errTruthy res.error then
    { s1 with error := res.error, loading := false,
              timers := s1.timers ++ [(s1.nextTimerId, s1.now + 4000)],
              intervalRef := some s1.nextTimerId,
              nextTimerId := s1.nextTimerId + 1 }
  else
    { s1 with leads := s1.leads.filter (fun l => l._id != id) }

/-- A pending auto-clear timer fires: its callback does `setError(null)`
unconditionally and clears itself.  Firing a timer that is not pending
does nothing. -/
def fireTimer (s : HomeState) (tid : Nat) : HomeState :=
  if tid ∈ s.timers.map Prod.fst then
    { s with error := none, timers := s.timers.filter (fun t => t.1 != tid) }
  else s

/-- `setOpen(b)` together with the `useEffect` on `[open]`: React bails
out when the value is unchanged; on a change the effect clears the error
exactly when the new value is `false` (`if (!open) setError(null)`). -/
def setOpenModal (s : HomeState) (b : Bool) : HomeState :=
  if b = s.modalOpen then s
  else if b then { s with modalOpen := b }
  else { s with modalOpen := b, error := none }

/-- What the table body renders. -/
inductive TableBody where
  | fetchingRow
  | leadRows (l : List ILead)
  | emptyRow
deriving DecidableEq

/-- The tbody: loading placeholder while fetching, the lead rows when
`leads?.length` is truthy, otherwise the "No leads available" row. -/
def renderTableBody (s : HomeState) : TableBody :=
  if s.fetching then .fetchingRow
  else if s.leads.length != 0 then .leadRows s.leads
  else .emptyRow

/-- The page-level error row: rendered when `!open && error`. -/
def renderPageError (s : HomeState) : Option String :=
  if !s.modalOpen && errTruthy s.error then s.error else none

/-- The error line inside the modal form (`error && <p>…`), visible only
while the modal is open (the Modal container hides its content when
closed). -/
def renderModalError (s : HomeState) : Option String :=
  if s.modalOpen && errTruthy s.error then s.error else none

/-- UI events: each network handler is applied with its resolved
response; `fire` is a pending auto-clear timer going off. -/
inductive Ev where
  | fetchOk (data : List ILead)
  | fetchErr (msg : String)
  | submit (input : TLeadFormInputs) (res : CreateResponse)
  | removeEv (id : String) (res : DeleteResponse)
  | setOpenEv (b : Bool)
  | fire (tid : Nat)
deriving DecidableEq

/-- One event-loop step. -/
def applyEvent (s : HomeState) : Ev → HomeState
  | .fetchOk data => fetchLeadsStep s (.ok data)
  | .fetchErr msg => fetchLeadsStep s (.error msg)
  | .submit input res => handleSubmitStep s input res
  | .removeEv id res => removeLead s id res
  | .setOpenEv b => setOpenModal s b
  | .fire tid => fireTimer s tid

/-- Folding a list of events over a state. -/
def applyEvents (s : HomeState) (evs : List Ev) : HomeState :=
  evs.foldl applyEvent s

/-- Running a trace from the initial state. -/
def run (evs : List Ev) : HomeState :=
  applyEvents initState evs

/-- The effect of one event on the lead sequence alone, with "successful"
meaning what the code tests: the response's error field absent or empty
(JS truthiness of `res.error`).  A successful fetch replaces the
sequence, a validated successful create appends the returned record, a
non-empty-id successful delete removes the matching ids, and every other
event leaves it unchanged.  No reordering or deduplication.  This is the
spec side of the amended C7 invariant. -/
def specLeadOp (l : List ILead) : Ev → List ILead
  | .fetchOk data => data
  | .fetchErr _ => l
  | .submit input res =>
      if validateLead input = [] && !errTruthy res.error then l ++ [res.record] else l
  | .removeEv id res =>
      if id != "" && !errTruthy res.error then l.filter (fun x => x._id != id) else l
  | .setOpenEv _ => l
  | .fire _ => l

/-- The sequence of the most recent successful fetch with each subsequent
operation's lead effect (`specLeadOp`) folded on. -/
def specLeadSequence (data : List ILead) (post : List Ev) : List ILead :=
  post.foldl specLeadOp data

/-- Modelled from the spec: the effect of one event on the lead sequence
with "successful" read strictly as the spec's words — "no error field in
response" (§4.2, envelope of §6) — i.e. `res.error = none`, rather than
the code's truthiness test. -/
def specLeadOpStrict (l : List ILead) : Ev → List ILead
  | .fetchOk data => data
  | .fetchErr _ => l
  | .submit input res =>
      if validateLead input = [] ∧ res.error = none then l ++ [res.record] else l
  | .removeEv id res =>
      if id ≠ "" ∧ res.error = none then l.filter (fun x => x._id != id) else l
  | .setOpenEv _ => l
  | .fire _ => l

/-- Modelled from the spec: the most recent successful fetch's sequence
with each subsequent operation folded on under the strict "no error
field" reading of success. -/
def specLeadSequenceStrict (data : List ILead) (post : List Ev) : List ILead :=
  post.foldl specLeadOpStrict data

/-- At most one auto-clear timer is pending, and a pending one is the one
tracked by `intervalRef` with a fresh id. -/
def TimerInv (s : HomeState) : Prop :=
  s.timers = [] ∨
  ∃ tid ft, s.timers = [(tid, ft)] ∧ s.intervalRef = some tid ∧ tid < s.nextTimerId

/-- A concrete lead used to instantiate theorems. -/
def adaLead : ILead := ⟨"1", "Ada", "ada@x.com", "New"⟩

/-- A second concrete lead. -/
def bobLead : ILead := ⟨"2", "Bob", "bob@x.com", "Engaged"⟩

/-- A concrete valid form input. -/
def adaInput : TLeadFormInputs := ⟨"Ada", "ada@x.com", "New"⟩

@[simp] theorem clearTrackedTimer_leads (s : HomeState) :
    (clearTrackedTimer s).leads = s.leads := rfl

@[simp] theorem clearTrackedTimer_error (s : HomeState) :
    (clearTrackedTimer s).error = s.error := rfl

@[simp] theorem clearTrackedTimer_modalOpen (s : HomeState) :
    (clearTrackedTimer s).modalOpen = s.modalOpen := rfl

@[simp] theorem clearTrackedTimer_loading (s : HomeState) :
    (clearTrackedTimer s).loading = s.loading := rfl

@[simp] theorem clearTrackedTimer_fetching (s : HomeState) :
    (clearTrackedTimer s).fetching = s.fetching := rfl

@[simp] theorem clearTrackedTimer_form (s : HomeState) :
    (clearTrackedTimer s).form = s.form := rfl

@[simp] theorem clearTrackedTimer_intervalRef (s : HomeState) :
    (clearTrackedTimer s).intervalRef = s.intervalRef := rfl

@[simp] theorem clearTrackedTimer_nextTimerId (s : HomeState) :
    (clearTrackedTimer s).nextTimerId = s.nextTimerId := rfl

@[simp] theorem clearTrackedTimer_now (s : HomeState) :
    (clearTrackedTimer s).now = s.now := rfl

/-- Under the timer invariant, the initial `clearInterval` of `removeLead`
leaves no pending timer at all. -/
theorem clearTracked_nil (s : HomeState) (h : TimerInv s) :
    (clearTrackedTimer s).timers = [] := by
  rcases h with h | ⟨tid, ft, ht, hr, _⟩
  · cases hi : s.intervalRef <;> simp [clearTrackedTimer, hi, h]
  · simp [clearTrackedTimer, hr, ht]

/-- The timer invariant only looks at `timers`, `intervalRef` and
`nextTimerId`. -/
theorem timerInv_congr {s s' : HomeState} (h1 : s'.timers = s.timers)
    (h2 : s'.intervalRef = s.intervalRef) (h3 : s'.nextTimerId = s.nextTimerId)
    (h : TimerInv s) : TimerInv s' := by
  rcases h with h | ⟨tid, ft, ht, hr, hn⟩
  · exact Or.inl (h1.trans h)
  · exact Or.inr ⟨tid, ft, h1.trans ht, h2.trans hr, h3 ▸ hn⟩

/-- A create submission never touches the timer bookkeeping. -/
theorem onSubmit_timer_fields (s : HomeState) (res : CreateResponse) :
    (onSubmit s res).timers = s.timers ∧ (onSubmit s res).intervalRef = s.intervalRef ∧
    (onSubmit s res).nextTimerId = s.nextTimerId := by
  unfold onSubmit; split <;> exact ⟨rfl, rfl, rfl⟩

/-- The validated submit handler never touches the timer bookkeeping. -/
theorem handleSubmitStep_timer_fields (s : HomeState) (input : TLeadFormInputs)
    (res : CreateResponse) :
    (handleSubmitStep s input res).timers = s.timers ∧
    (handleSubmitStep s input res).intervalRef = s.intervalRef ∧
    (handleSubmitStep s input res).nextTimerId = s.nextTimerId := by
  unfold handleSubmitStep; split
  · exact onSubmit_timer_fields s res
  · exact ⟨rfl, rfl, rfl⟩

/-- `removeLead` preserves the timer invariant. -/
theorem timerInv_removeLead (s : HomeState) (id : String) (res : DeleteResponse)
    (h : TimerInv s) : TimerInv (removeLead s id res) := by
  have hnil := clearTracked_nil s h
  simp only [removeLead]
  split
  · exact Or.inl hnil
  · split
    · exact Or.inr ⟨s.nextTimerId, s.now + 4000, by simp [hnil], rfl, Nat.lt_succ_self _⟩
    · exact Or.inl (by simp [hnil])

/-- Firing a timer preserves the timer invariant. -/
theorem timerInv_fireTimer (s : HomeState) (tid : Nat) (h : TimerInv s) :
    TimerInv (fireTimer s tid) := by
  unfold fireTimer
  split
  · rcases h with h | ⟨t, ft, ht, hr, hn⟩
    · exact Or.inl (by simp [h])
    · by_cases he : t = tid
      · exact Or.inl (by simp [ht, he])
      · exact Or.inr ⟨t, ft, by simp [ht, bne_iff_ne, he], hr, hn⟩
  · exact h

/-- Every event-loop step preserves the timer invariant. -/
theorem timerInv_applyEvent (s : HomeState) (e : Ev) (h : TimerInv s) :
    TimerInv (applyEvent s e) := by
  cases e with
  | fetchOk data => exact timerInv_congr rfl rfl rfl h
  | fetchErr msg => exact timerInv_congr rfl rfl rfl h
  | submit input res =>
      obtain ⟨h1, h2, h3⟩ := handleSubmitStep_timer_fields s input res
      exact timerInv_congr h1 h2 h3 h
  | removeEv id res => exact timerInv_removeLead s id res h
  | setOpenEv b =>
      show TimerInv (setOpenModal s b)
      unfold setOpenModal
      split
      · exact h
      · split <;> exact timerInv_congr rfl rfl rfl h
  | fire tid => exact timerInv_fireTimer s tid h

/-- The timer invariant holds along any event sequence. -/
theorem timerInv_applyEvents (s : HomeState) (evs : List Ev) (h : TimerInv s) :
    TimerInv (applyEvents s evs) := by
  induction evs generalizing s with
  | nil => exact h
  | cons e rest ih => exact ih (applyEvent s e) (timerInv_applyEvent s e h)

/-- The timer invariant holds in every reachable state. -/
theorem timerInv_run (evs : List Ev) : TimerInv (run evs) :=
  timerInv_applyEvents initState evs (Or.inl rfl)

/-- One event-loop step changes the lead sequence exactly as the
spec-side operation says. -/
theorem applyEvent_leads (s : HomeState) (e : Ev) :
    (applyEvent s e).leads = specLeadOp s.leads e := by
  cases e with
  | fetchOk data => rfl
  | fetchErr msg => rfl
  | submit input res =>
      by_cases hv : validateLead input = [] <;>
        by_cases he : errTruthy res.error <;>
          simp [applyEvent, handleSubmitStep, onSubmit, specLeadOp, hv, he]
  | removeEv id res =>
      by_cases hid : id = "" <;>
        by_cases he : errTruthy res.error <;>
          simp [applyEvent, removeLead, specLeadOp, hid, he, bne_iff_ne]
  | setOpenEv b =>
      show (setOpenModal s b).leads = s.leads
      unfold setOpenModal
      split
      · rfl
      · split <;> rfl
  | fire tid =>
      show (fireTimer s tid).leads = s.leads
      unfold fireTimer
      split <;> rfl

/-- Folding events over a state changes the lead sequence exactly as the
spec-side fold says. -/
theorem applyEvents_leads (post : List Ev) (s : HomeState) :
    (applyEvents s post).leads = specLeadSequence s.leads post := by
  induction post generalizing s with
  | nil => rfl
  | cons e rest ih =>
      show (applyEvents (applyEvent s e) rest).leads =
        specLeadSequence (specLeadOp s.leads e) rest
      rw [ih (applyEvent s e), applyEvent_leads]

/-- C1: a create response without an error field closes the modal, resets
the form to its initial values, clears the error state and appends exactly
the response record to the lead sequence. -/
theorem C1_create_success (s : HomeState) (res : CreateResponse)
    (h : res.error = none) :
    onSubmit s res =
      { s with modalOpen := false, form := initialFormInputs,
               leads := s.leads ++ [res.record], error := none, loading := false } := by
  simp [onSubmit, h, errTruthy]

theorem C1_create_success_witness :
    (⟨none, adaLead⟩ : CreateResponse).error = none ∧
    onSubmit initState ⟨none, adaLead⟩ =
      { initState with modalOpen := false, form := initialFormInputs,
                       leads := initState.leads ++ [adaLead], error := none,
                       loading := false } :=
  ⟨rfl, C1_create_success initState ⟨none, adaLead⟩ rfl⟩

/-- C2 as stated is false: a response whose error field is present but
empty carries an error field, yet the code's truthiness test (`if
(res.error)`) takes the success branch, so the modal closes and the lead
sequence grows. -/
theorem C2_counterexample :
    (⟨some "", adaLead⟩ : CreateResponse).error = some "" ∧
    (onSubmit { initState with modalOpen := true } ⟨some "", adaLead⟩).modalOpen = false ∧
    (onSubmit { initState with modalOpen := true } ⟨some "", adaLead⟩).leads = [adaLead] :=
  ⟨rfl, rfl, rfl⟩

/-- C2 amended: a create response carrying a NON-EMPTY error field leaves
the modal-open flag, the lead sequence and the form unchanged, stores the
response's error message, and (when the modal is open) displays it in the
modal. -/
theorem C2_create_failure (s : HomeState) (res : CreateResponse) (msg : String)
    (he : res.error = some msg) (hne : msg ≠ "") :
    (onSubmit s res).modalOpen = s.modalOpen ∧
    (onSubmit s res).error = some msg ∧
    (onSubmit s res).leads = s.leads ∧
    (onSubmit s res).form = s.form ∧
    (s.modalOpen = true → renderModalError (onSubmit s res) = some msg) := by
  have ht : errTruthy res.error = true := by
    simp [he, errTruthy, bne_iff_ne, hne]
  refine ⟨?_, ?_, ?_, ?_, ?_⟩ <;>
    simp [onSubmit, ht, he, renderModalError, errTruthy, bne_iff_ne, hne]

theorem C2_create_failure_witness :
    ((⟨some "Email already exists", adaLead⟩ : CreateResponse).error =
        some "Email already exists") ∧
    ((onSubmit { initState with modalOpen := true }
        ⟨some "Email already exists", adaLead⟩).modalOpen =
      ({ initState with modalOpen := true } : HomeState).modalOpen ∧
    (onSubmit { initState with modalOpen := true }
        ⟨some "Email already exists", adaLead⟩).error = some "Email already exists" ∧
    (onSubmit { initState with modalOpen := true }
        ⟨some "Email already exists", adaLead⟩).leads =
      ({ initState with modalOpen := true } : HomeState).leads ∧
    (onSubmit { initState with modalOpen := true }
        ⟨some "Email already exists", adaLead⟩).form =
      ({ initState with modalOpen := true } : HomeState).form ∧
    (({ initState with modalOpen := true } : HomeState).modalOpen = true →
      renderModalError (onSubmit { initState with modalOpen := true }
        ⟨some "Email already exists", adaLead⟩) = some "Email already exists")) :=
  ⟨rfl, C2_create_failure { initState with modalOpen := true }
      ⟨some "Email already exists", adaLead⟩ "Email already exists" rfl (by decide)⟩

/-- C3: a successful delete of a non-empty id filters every record with
that `_id` out of the lead sequence: the id no longer appears, and every
other record is kept. -/
theorem C3_delete_success (s : HomeState) (id : String) (res : DeleteResponse)
    (hid : id ≠ "") (he : res.error = none) :
    (removeLead s id res).leads = s.leads.filter (fun l => l._id != id) ∧
    (∀ l ∈ (removeLead s id res).leads, l._id ≠ id) ∧
    (∀ l ∈ s.leads, l._id ≠ id → l ∈ (removeLead s id res).leads) := by
  have h1 : (removeLead s id res).leads = s.leads.filter (fun l => l._id != id) := by
    simp [removeLead, clearTrackedTimer, hid, he, errTruthy]
  refine ⟨h1, ?_, ?_⟩
  · intro l hl
    rw [h1, List.mem_filter] at hl
    simpa [bne_iff_ne] using hl.2
  · intro l hl hne
    rw [h1, List.mem_filter]
    exact ⟨hl, by simpa [bne_iff_ne] using hne⟩

theorem C3_delete_success_witness :
    ("1" ≠ "") ∧ ((⟨none⟩ : DeleteResponse).error = none) ∧
    ((removeLead { initState with leads := [adaLead, bobLead] } "1" ⟨none⟩).leads =
      ({ initState with leads := [adaLead, bobLead] } : HomeState).leads.filter
        (fun l => l._id != "1") ∧
    (∀ l ∈ (removeLead { initState with leads := [adaLead, bobLead] } "1" ⟨none⟩).leads,
      l._id ≠ "1") ∧
    (∀ l ∈ ({ initState with leads := [adaLead, bobLead] } : HomeState).leads,
      l._id ≠ "1" →
        l ∈ (removeLead { initState with leads := [adaLead, bobLead] } "1" ⟨none⟩).leads)) :=
  ⟨by decide, rfl,
    C3_delete_success { initState with leads := [adaLead, bobLead] } "1" ⟨none⟩
      (by decide) rfl⟩

/-- C5 as stated is false: `removeLead` calls `clearInterval` on the
tracked timer BEFORE the empty-id guard, so a remove with an empty id
cancels a pending auto-clear timer — page state does change. -/
theorem C5_counterexample :
    (removeLead initState "a" ⟨some "boom"⟩).timers = [(0, 4000)] ∧
    (removeLead (removeLead initState "a" ⟨some "boom"⟩) "" ⟨none⟩).timers = [] := by
  decide

/-- C5 amended: a remove with an empty id issues no delete request (the
result does not depend on any response) and leaves the lead sequence,
error, modal flag, loading flag and form unchanged, but it does cancel
the tracked pending auto-clear timer first. -/
theorem C5_empty_id (s : HomeState) (r1 r2 : DeleteResponse) :
    removeLead s "" r1 = removeLead s "" r2 ∧
    (removeLead s "" r1).leads = s.leads ∧
    (removeLead s "" r1).error = s.error ∧
    (removeLead s "" r1).modalOpen = s.modalOpen ∧
    (removeLead s "" r1).loading = s.loading ∧
    (removeLead s "" r1).form = s.form ∧
    removeLead s "" r1 = clearTrackedTimer s := by
  have h : ∀ r : DeleteResponse, removeLead s "" r = clearTrackedTimer s := by
    intro r
    simp [removeLead]
  refine ⟨by rw [h r1, h r2], ?_, ?_, ?_, ?_, ?_, h r1⟩ <;>
    rw [h r1] <;> simp [clearTrackedTimer]

/-- C6 as stated is false: the `useEffect` on `[open]` clears the error
only when the flag becomes false; reopening the modal (false → true) with
an error present leaves the error in place. -/
theorem C6_counterexample :
    (setOpenModal { initState with error := some "boom" } true).modalOpen = true ∧
    (setOpenModal { initState with error := some "boom" } true).error = some "boom" := by
  decide

/-- C6 amended: when the modal-open flag changes, the page error is
cleared immediately if the flag becomes false (modal closed); when it
becomes true (modal reopened) the error is left unchanged. -/
theorem C6_modal_toggle (s : HomeState) (b : Bool) (h : b ≠ s.modalOpen) :
    (setOpenModal s b).modalOpen = b ∧
    (b = false → (setOpenModal s b).error = none) ∧
    (b = true → (setOpenModal s b).error = s.error) := by
  cases b <;> simp [setOpenModal, h]

theorem C6_modal_toggle_witness :
    ((false : Bool) ≠ ({ initState with modalOpen := true, error := some "e" } :
        HomeState).modalOpen) ∧
    ((setOpenModal { initState with modalOpen := true, error := some "e" } false).modalOpen =
        false ∧
    ((false : Bool) = false →
      (setOpenModal { initState with modalOpen := true, error := some "e" } false).error =
        none) ∧
    ((false : Bool) = true →
      (setOpenModal { initState with modalOpen := true, error := some "e" } false).error =
        ({ initState with modalOpen := true, error := some "e" } : HomeState).error)) :=
  ⟨by decide,
    C6_modal_toggle { initState with modalOpen := true, error := some "e" } false (by decide)⟩

/-- C8: an input with an empty name makes validation report "Name is
required" for the name field, validation fails overall, and the create
request is never issued (the submit handler leaves the state untouched for
every response). -/
theorem C8_empty_name (input : TLeadFormInputs) (h : input.name = "") :
    ("name", "Name is required") ∈ validateLead input ∧
    validateLead input ≠ [] ∧
    ∀ (s : HomeState) (res : CreateResponse), handleSubmitStep s input res = s := by
  have hv : validateLead input =
      ("name", "Name is required") ::
        (fieldErrors "email" (validateEmail input.email) ++
         fieldErrors "status" (validateStatus input.status)) := by
    simp [validateLead, validateName, h, fieldErrors]
  refine ⟨?_, ?_, ?_⟩
  · rw [hv]; exact List.mem_cons_self _ _
  · rw [hv]; simp
  · intro s res
    unfold handleSubmitStep
    rw [hv]
    simp

theorem C8_empty_name_witness :
    ((⟨"", "ada@x.com", "New"⟩ : TLeadFormInputs).name = "") ∧
    (("name", "Name is required") ∈ validateLead ⟨"", "ada@x.com", "New"⟩ ∧
    validateLead ⟨"", "ada@x.com", "New"⟩ ≠ [] ∧
    ∀ (s : HomeState) (res : CreateResponse),
      handleSubmitStep s ⟨"", "ada@x.com", "New"⟩ res = s) :=
  ⟨rfl, C8_empty_name ⟨"", "ada@x.com", "New"⟩ rfl⟩

/-- C4 as stated is false: a delete response whose error field is the
empty string carries an error field, yet the code's truthiness test (`if
(res.error)`) takes the success branch — no error message becomes
visible, no auto-clear timer is scheduled, and the lead is removed. -/
theorem C4_counterexample :
    ((⟨some ""⟩ : DeleteResponse).error = some "") ∧
    (removeLead { initState with leads := [adaLead] } "1" ⟨some ""⟩).error = none ∧
    renderPageError (removeLead { initState with leads := [adaLead] } "1" ⟨some ""⟩) =
      none ∧
    (removeLead { initState with leads := [adaLead] } "1" ⟨some ""⟩).timers = [] ∧
    (removeLead { initState with leads := [adaLead] } "1" ⟨some ""⟩).leads = [] := by
  decide

/-- C4 amended: after a delete whose response carries a NON-EMPTY error
message (non-empty id), from any reachable state, the error message is
stored and visible on the page at once; exactly one auto-clear timer is
pending — scheduled 4000 ms out, the previously tracked timer having been
canceled first, so two timers are never pending together — and when that
timer fires the error is cleared and no longer visible.  (A response with
an empty-string error field takes the success path instead.) -/
theorem C4_delete_failure_timer (evs : List Ev) (id msg : String) (res : DeleteResponse)
    (hid : id ≠ "") (he : res.error = some msg) (hmsg : msg ≠ "") :
    (removeLead (run evs) id res).error = some msg ∧
    ((removeLead (run evs) id res).modalOpen = false →
      renderPageError (removeLead (run evs) id res) = some msg) ∧
    (removeLead (run evs) id res).timers =
      [((run evs).nextTimerId, (run evs).now + 4000)] ∧
    (fireTimer (removeLead (run evs) id res) (run evs).nextTimerId).error = none ∧
    renderPageError (fireTimer (removeLead (run evs) id res) (run evs).nextTimerId) =
      none := by
  have hnil := clearTracked_nil (run evs) (timerInv_run evs)
  have ht : errTruthy res.error = true := by simp [he, errTruthy, bne_iff_ne, hmsg]
  have hs : removeLead (run evs) id res =
      { clearTrackedTimer (run evs) with
          error := res.error, loading := false,
          timers := [((run evs).nextTimerId, (run evs).now + 4000)],
          intervalRef := some (run evs).nextTimerId,
          nextTimerId := (run evs).nextTimerId + 1 } := by
    simp only [removeLead, if_neg hid, ht, if_true, hnil, List.nil_append,
      clearTrackedTimer_nextTimerId, clearTrackedTimer_now]
  rw [hs]
  refine ⟨he, ?_, rfl, ?_, ?_⟩
  · intro hmo
    have hmo2 : (run evs).modalOpen = false := by simpa using hmo
    simp [renderPageError, hmo2, he, bne_iff_ne, hmsg, errTruthy]
  · simp [fireTimer]
  · simp [fireTimer, renderPageError, errTruthy]

theorem C4_delete_failure_timer_witness :
    ("9" ≠ "") ∧ ((⟨some "boom"⟩ : DeleteResponse).error = some "boom") ∧
    ("boom" ≠ "") ∧
    ((removeLead (run []) "9" ⟨some "boom"⟩).error = some "boom" ∧
    ((removeLead (run []) "9" ⟨some "boom"⟩).modalOpen = false →
      renderPageError (removeLead (run []) "9" ⟨some "boom"⟩) = some "boom") ∧
    (removeLead (run []) "9" ⟨some "boom"⟩).timers =
      [((run []).nextTimerId, (run []).now + 4000)] ∧
    (fireTimer (removeLead (run []) "9" ⟨some "boom"⟩) (run []).nextTimerId).error =
      none ∧
    renderPageError
      (fireTimer (removeLead (run []) "9" ⟨some "boom"⟩) (run []).nextTimerId) = none) :=
  ⟨by decide, rfl, by decide,
    C4_delete_failure_timer [] "9" "boom" ⟨some "boom"⟩ (by decide) rfl (by decide)⟩

/-- C7 as stated is false: with success read as the spec's "no error
field in response", a create response carrying `error: ""` is not a
successful create, yet the code's truthiness test appends its record —
so after a successful fetch with no later fetch, the displayed sequence
differs from the spec-side fold at that concrete trace. -/
theorem C7_counterexample :
    (applyEvents (applyEvent initState (.fetchOk [adaLead]))
        [Ev.submit adaInput ⟨some "", bobLead⟩]).leads = [adaLead, bobLead] ∧
    specLeadSequenceStrict [adaLead] [Ev.submit adaInput ⟨some "", bobLead⟩] =
      [adaLead] ∧
    ([adaLead, bobLead] : List ILead) ≠ [adaLead] := by
  refine ⟨by decide, by decide, by decide⟩

/-- C7 amended: after a successful fetch, as long as no later successful
fetch occurs, the displayed lead sequence equals the fetched sequence
with each subsequent operation's effect folded on in order — a validated
create appended at the end and a delete removed by identity exactly when
the response's error field is absent or EMPTY (the code's truthiness
test), every other event leaving it unchanged — no reordering and no
deduplication. -/
theorem C7_store_invariant (s : HomeState) (data : List ILead) (post : List Ev)
    (_hpost : ∀ d, Ev.fetchOk d ∉ post) :
    (applyEvents (applyEvent s (.fetchOk data)) post).leads =
      specLeadSequence data post := by
  have h : (applyEvent s (.fetchOk data)).leads = data := rfl
  rw [applyEvents_leads, h]

theorem C7_store_invariant_witness :
    (∀ d, Ev.fetchOk d ∉
      [Ev.removeEv "1" ⟨none⟩, Ev.submit adaInput ⟨none, bobLead⟩]) ∧
    (applyEvents (applyEvent initState (.fetchOk [adaLead, bobLead]))
        [Ev.removeEv "1" ⟨none⟩, Ev.submit adaInput ⟨none, bobLead⟩]).leads =
      specLeadSequence [adaLead, bobLead]
        [Ev.removeEv "1" ⟨none⟩, Ev.submit adaInput ⟨none, bobLead⟩] :=
  ⟨by intro d; simp,
    C7_store_invariant initState [adaLead, bobLead]
      [Ev.removeEv "1" ⟨none⟩, Ev.submit adaInput ⟨none, bobLead⟩]
      (by intro d; simp)⟩

/-- C9 as stated is false: a successful fetch returning the empty
sequence is a successful replace, yet after a later failed fetch the
table still shows the empty-state row. -/
theorem C9_counterexample :
    Ev.fetchOk [] ∈ [Ev.fetchOk [], Ev.fetchErr "boom"] ∧
    (run [Ev.fetchOk [], Ev.fetchErr "boom"]).error = some "boom" ∧
    renderTableBody (run [Ev.fetchOk [], Ev.fetchErr "boom"]) = TableBody.emptyRow :=
  ⟨List.mem_cons_self _ _, rfl, rfl⟩

/-- C9 amended: a failed fetch stores the error message and leaves the
lead sequence unchanged, and the table then shows the empty-state row
precisely when that (unchanged) sequence is empty — in particular when no
successful replace or append ever populated it. -/
theorem C9_fetch_failure (s : HomeState) (msg : String) :
    (fetchLeadsStep s (.error msg)).error = some msg ∧
    (fetchLeadsStep s (.error msg)).leads = s.leads ∧
    (renderTableBody (fetchLeadsStep s (.error msg)) = TableBody.emptyRow ↔
      s.leads = []) := by
  refine ⟨rfl, rfl, ?_⟩
  by_cases h : s.leads = [] <;>
    simp [renderTableBody, fetchLeadsStep, h, List.length_eq_zero]

/-- C10: the auto-clear callback of a pending timer sets the error to
null unconditionally when it fires, whatever operation produced the error
then displayed; neither a create submission (any outcome) nor a fetch
touches the pending timers or the tracked ref; concretely, the timer
scheduled by a failed delete later erases the error that a subsequent
failed create had set. -/
theorem C10_timer_clears_any_error :
    (∀ (s : HomeState) (tid : Nat), tid ∈ s.timers.map Prod.fst →
      (fireTimer s tid).error = none) ∧
    (∀ (s : HomeState) (input : TLeadFormInputs) (res : CreateResponse),
      (handleSubmitStep s input res).timers = s.timers ∧
      (handleSubmitStep s input res).intervalRef = s.intervalRef) ∧
    (∀ (s : HomeState) (r : Except String (List ILead)),
      (fetchLeadsStep s r).timers = s.timers ∧
      (fetchLeadsStep s r).intervalRef = s.intervalRef) ∧
    (run [Ev.removeEv "1" ⟨some "delete failed"⟩,
          Ev.submit adaInput ⟨some "Email already exists", adaLead⟩]).error =
      some "Email already exists" ∧
    (run [Ev.removeEv "1" ⟨some "delete failed"⟩,
          Ev.submit adaInput ⟨some "Email already exists", adaLead⟩,
          Ev.fire 0]).error = none := by
  refine ⟨?_, ?_, ?_, ?_, ?_⟩
  · intro s tid h
    unfold fireTimer
    rw [if_pos h]
  · intro s input res
    obtain ⟨h1, h2, _⟩ := handleSubmitStep_timer_fields s input res
    exact ⟨h1, h2⟩
  · intro s r
    cases r <;> exact ⟨rfl, rfl⟩
  · decide
  · decide

theorem C10_timer_clears_any_error_witness :
    (0 ∈ (removeLead initState "1" ⟨some "boom"⟩).timers.map Prod.fst) ∧
    (fireTimer (removeLead initState "1" ⟨some "boom"⟩) 0).error = none :=
  ⟨by decide,
    C10_timer_clears_any_error.1 (removeLead initState "1" ⟨some "boom"⟩) 0 (by decide)⟩

end LeadManager
